import Mathlib

/-!
Shallow embedding of the two source files of
Twitter-Multi-Aspect-Sentiment-Analysis:

* `src/scripts/compare_models.py` — the comparison driver: it builds an
  argument-dependent list of per-model training scripts, invokes each as a
  subprocess with a timeout via `run_script`, logs success/failure, and then
  generates a report and displays results.
* `src/utils/model.py` — the model wrapper: `SentimentModel`,
  `EnhancedSentimentModel`, and the module-level functional API
  (`create_model`, `train_model`, `evaluate_model`).

Subprocess execution itself is external; it is modelled by a
`SubprocessOutcome` value supplied to `run_script`, and the driver's `main`
is modelled as a function from the parsed arguments and an outcome
assignment to the ordered trace of observable events it performs.
-/

namespace CompareModels

/-- Outcome of `subprocess.run(cmd, capture_output=True, text=True, timeout=timeout)`:
either the subprocess completed (within the timeout) with a return code and
captured output, or `subprocess.TimeoutExpired` was raised, or some other
exception was raised. -/
inductive SubprocessOutcome where
  | completed (returncode : Int) (stdout : String) (stderr : String)
  | timedOut
  | raised (msg : String)
deriving DecidableEq, Repr

/-- Level of a logger call (`logger.info` / `logger.warning` / `logger.error`). -/
inductive LogLevel where
  | info
  | warning
  | error
deriving DecidableEq, Repr

/-- One logger call: level and message. -/
structure LogEntry where
  level : LogLevel
  msg : String
deriving DecidableEq, Repr

/-- `run_script(script_name, args=None, timeout=1800)` from
`src/scripts/compare_models.py`, given the outcome of its single
`subprocess.run` call.  Returns the boolean result together with the ordered
list of logger calls it makes.  (The "Script execution time" info log uses
wall-clock time, which the embedding does not model numerically; its message
is kept without the elapsed-seconds figure.) -/
def run_script (script_name : String) (args : List String) (timeout : Int)
    (outcome : SubprocessOutcome) : Bool × List LogEntry :=
  let running : LogEntry := ⟨LogLevel.info, "Running " ++ script_name ++ "..."⟩
  match outcome with
  | SubprocessOutcome.completed returncode _ stderr =>
      let timed : LogEntry := ⟨LogLevel.info, "Script execution time"⟩
      if returncode ≠ 0 then
        (false, [running, timed,
                 ⟨LogLevel.error, "Error running " ++ script_name ++ ":"⟩,
                 ⟨LogLevel.error, stderr⟩])
      else
        (true, [running, timed,
                ⟨LogLevel.info, "Successfully ran " ++ script_name⟩])
  | SubprocessOutcome.timedOut =>
      (false, [running,
               ⟨LogLevel.error, "Timeout after " ++ toString timeout ++
                 " seconds while running " ++ script_name⟩])
  | SubprocessOutcome.raised e =>
      (false, [running,
               ⟨LogLevel.error, "Error running " ++ script_name ++ ": " ++ e⟩])

/-- The parsed command-line arguments of the driver
(`argparse` result in `main`). -/
structure Args where
  include_roberta : Bool
  include_all : Bool
  sample_size : Int
  timeout : Int
  skip_training : Bool
  verbose : Int
deriving DecidableEq, Repr

/-- The `argparse` defaults of the driver. -/
def defaultArgs : Args :=
  { include_roberta := false
    include_all := false
    sample_size := 20000
    timeout := 1800
    skip_training := false
    verbose := 1 }

/-- The `script_mapping` dictionary in `main`. -/
def script_mapping (key : String) : String :=
  if key = "mlp_basic" then "mlp_basic_main.py"
  else if key = "mlp_enhanced" then "mlp_enhanced_main.py"
  else if key = "roberta" then "roberta_main.py"
  else if key = "kernel" then "kernel_approximation_main.py"
  else if key = "pca" then "randomized_pca_main.py"
  else if key = "lstm" then "lstm_main.py"
  else if key = "lstm_roberta" then "lstm_roberta_main.py"
  else ""

/-- One entry of the `scripts` list in `main`: script file name and the
extra command-line arguments passed to it. -/
structure ScriptInfo where
  name : String
  args : List String
deriving DecidableEq, Repr

/-- `transformer_sample_size = min(args.sample_size, 20000) if
args.sample_size > 20000 else args.sample_size` in `main`. -/
def transformerSampleSize (sample_size : Int) : Int :=
  if sample_size > 20000 then min sample_size 20000 else sample_size

/-- The `scripts` list built in `main` before the run loop: the four base
scripts, then `roberta_main.py` when `--include_roberta` or `--include_all`
is set, then `lstm_main.py` and `lstm_roberta_main.py` when `--include_all`
is set. -/
def buildScripts (a : Args) : List ScriptInfo :=
  let base : List ScriptInfo :=
    [⟨script_mapping "mlp_basic", ["--sample_size=" ++ toString a.sample_size]⟩,
     ⟨script_mapping "mlp_enhanced", ["--sample_size=" ++ toString a.sample_size]⟩,
     ⟨script_mapping "kernel", ["--sample_size=" ++ toString a.sample_size]⟩,
     ⟨script_mapping "pca", ["--sample_size=" ++ toString a.sample_size]⟩]
  if a.include_roberta || a.include_all then
    let t := transformerSampleSize a.sample_size
    let roberta_args : List String := ["--sample_size=" ++ toString t]
    let withRoberta := base ++ [⟨script_mapping "roberta", roberta_args⟩]
    if a.include_all then
      withRoberta ++
        [⟨script_mapping "lstm", ["--sample_size=" ++ toString t, "--mode=train"]⟩,
         ⟨script_mapping "lstm_roberta", ["--sample_size=" ++ toString t, "--mode=train"]⟩]
    else withRoberta
  else base

/-- The per-script timeout chosen in the run loop of `main`:
`args.timeout`, raised to at least 3600 seconds for `roberta_main.py`
and `lstm_roberta_main.py`. -/
def scriptTimeout (a : Args) (name : String) : Int :=
  if name = script_mapping "roberta" ∨ name = script_mapping "lstm_roberta" then
    max a.timeout 3600
  else a.timeout

/-- Observable driver-level events of `main`, in execution order. -/
inductive Event where
  | invoke (name : String) (args : List String) (timeout : Int)
  | logWarn (msg : String)
  | logInfo (msg : String)
  | saveReport
  | displayResults
deriving DecidableEq, Repr

/-- One iteration of the run loop in `main`: invoke the script via
`run_script` with the chosen timeout, and on failure log the
"Skipping ... due to errors" warning. -/
def runOne (a : Args) (outcomeOf : ScriptInfo → SubprocessOutcome)
    (s : ScriptInfo) : List Event :=
  let t := scriptTimeout a s.name
  Event.invoke s.name s.args t ::
    (if (run_script s.name s.args t (outcomeOf s)).1 then []
     else [Event.logWarn ("Skipping " ++ s.name ++ " due to errors")])

/-- The trace of `main`, given the parsed arguments and the outcome of each
subprocess: unless `--skip_training` is set, run every selected script in
order; then call `save_report_to_file()`, then `load_and_display_results()`,
then log completion. -/
def main (a : Args) (outcomeOf : ScriptInfo → SubprocessOutcome) : List Event :=
  (if a.skip_training then
     [Event.logInfo "Skipping model training as requested"]
   else
     (buildScripts a).flatMap (runOne a outcomeOf))
  ++ [Event.saveReport, Event.displayResults,
      Event.logInfo "Model comparison complete!"]

/-- Names of the `invoke` events of a trace, in order. -/
def invokedNames : List Event → List String
  | [] => []
  | Event.invoke n _ _ :: rest => n :: invokedNames rest
  | _ :: rest => invokedNames rest

/-- Timeouts of the `invoke` events of a trace, in order. -/
def invokedTimeouts : List Event → List Int
  | [] => []
  | Event.invoke _ _ t :: rest => t :: invokedTimeouts rest
  | _ :: rest => invokedTimeouts rest

end CompareModels

namespace ModelPy

/-- Activation of a Keras `Dense` layer. -/
inductive Activation where
  | relu
  | softmax
deriving DecidableEq, Repr

/-- A Keras layer as configured in `src/utils/model.py`: `Dense` (with units,
activation, optional `input_dim`, optional L2 kernel-regularizer strength),
`Dropout` (with rate), or `BatchNormalization`.  Rates and regularizer
strengths are rationals (`0.3` is `3/10`, etc.). -/
inductive Layer where
  | dense (units : Nat) (activation : Activation)
      (inputDim : Option Nat) (kernelRegL2 : Option ℚ)
  | dropout (rate : ℚ)
  | batchNorm
deriving DecidableEq, Repr

/-- The optimizer argument of `model.compile`: either a string name
(`'adam'`) or an explicit `tf.keras.optimizers.Adam` configuration. -/
inductive OptimizerSpec where
  | named (s : String)
  | adamCfg (learning_rate beta_1 beta_2 epsilon : ℚ) (amsgrad : Bool)
deriving DecidableEq, Repr

/-- The arguments of the single `model.compile` call. -/
structure CompileConfig where
  optimizer : OptimizerSpec
  loss : String
  metrics : List String
deriving DecidableEq, Repr

/-- A compiled `models.Sequential` model: its layer stack and its
compilation arguments. -/
structure KerasModel where
  layers : List Layer
  compileCfg : CompileConfig
deriving DecidableEq, Repr

/-- `SentimentModel._create_model` from `src/utils/model.py`:
Dense(512, relu, input_dim) / Dropout(0.3) / Dense(256, relu) / Dropout(0.3)
/ Dense(128, relu) / Dropout(0.3) / Dense(num_classes, softmax), compiled
with optimizer `'adam'`, loss `'sparse_categorical_crossentropy'`,
metrics `['accuracy']`. -/
def SentimentModel.createModel (input_dim num_classes : Nat) : KerasModel :=
  { layers :=
      [Layer.dense 512 Activation.relu (some input_dim) none,
       Layer.dropout (3/10),
       Layer.dense 256 Activation.relu none none,
       Layer.dropout (3/10),
       Layer.dense 128 Activation.relu none none,
       Layer.dropout (3/10),
       Layer.dense num_classes Activation.softmax none none]
    compileCfg :=
      { optimizer := OptimizerSpec.named "adam"
        loss := "sparse_categorical_crossentropy"
        metrics := ["accuracy"] } }

/-- The module-level `create_model` (functional compatibility API) from
`src/utils/model.py`. -/
def create_model (input_dim num_classes : Nat) : KerasModel :=
  { layers :=
      [Layer.dense 512 Activation.relu (some input_dim) none,
       Layer.dropout (3/10),
       Layer.dense 256 Activation.relu none none,
       Layer.dropout (3/10),
       Layer.dense 128 Activation.relu none none,
       Layer.dropout (3/10),
       Layer.dense num_classes Activation.softmax none none]
    compileCfg :=
      { optimizer := OptimizerSpec.named "adam"
        loss := "sparse_categorical_crossentropy"
        metrics := ["accuracy"] } }

/-- `EnhancedSentimentModel._create_model` from `src/utils/model.py`:
each hidden Dense layer carries an L2(0.001) kernel regularizer and is
followed by `BatchNormalization` and a `Dropout` (rates 0.4/0.3/0.2);
compiled with an explicit `Adam(1e-3, 0.9, 0.999, 1e-7, amsgrad=True)`. -/
def EnhancedSentimentModel.createModel (input_dim num_classes : Nat) : KerasModel :=
  let regularizer : ℚ := 1/1000
  { layers :=
      [Layer.dense 512 Activation.relu (some input_dim) (some regularizer),
       Layer.batchNorm,
       Layer.dropout (4/10),
       Layer.dense 256 Activation.relu none (some regularizer),
       Layer.batchNorm,
       Layer.dropout (3/10),
       Layer.dense 128 Activation.relu none (some regularizer),
       Layer.batchNorm,
       Layer.dropout (2/10),
       Layer.dense num_classes Activation.softmax none none]
    compileCfg :=
      { optimizer :=
          OptimizerSpec.adamCfg (1/1000) (9/10) (999/1000) (1/10000000) true
        loss := "sparse_categorical_crossentropy"
        metrics := ["accuracy"] } }

/-- A Keras callback as configured in `src/utils/model.py`. -/
inductive Callback where
  | earlyStopping (monitor : String) (patience : Nat) (restore_best_weights : Bool)
  | reduceLROnPlateau (monitor : String) (factor : ℚ) (patience : Nat) (min_lr : ℚ)
deriving DecidableEq, Repr

/-- The arguments of a `model.fit` call as made in `src/utils/model.py`:
epochs, batch size, whether validation data is passed, callbacks, verbosity. -/
structure FitCall where
  epochs : Nat
  batch_size : Nat
  hasValidationData : Bool
  callbacks : List Callback
  verbose : Nat
deriving DecidableEq, Repr

/-- `SentimentModel.train`: builds `EarlyStopping('val_loss', patience=3,
restore_best_weights=True)` and calls `self.model.fit` with validation data,
that single callback, and `verbose=1`. -/
def SentimentModel.trainCall (epochs batch_size : Nat) : FitCall :=
  let early_stopping := Callback.earlyStopping "val_loss" 3 true
  { epochs := epochs
    batch_size := batch_size
    hasValidationData := true
    callbacks := [early_stopping]
    verbose := 1 }

/-- The module-level `train_model` (functional compatibility API). -/
def train_model_call (epochs batch_size : Nat) : FitCall :=
  let early_stopping := Callback.earlyStopping "val_loss" 3 true
  { epochs := epochs
    batch_size := batch_size
    hasValidationData := true
    callbacks := [early_stopping]
    verbose := 1 }

/-- `EnhancedSentimentModel.train`: `ReduceLROnPlateau` plus
`EarlyStopping('val_loss', patience=5)`, passed as
`[early_stopping, lr_scheduler]`. -/
def EnhancedSentimentModel.trainCall (epochs batch_size : Nat) : FitCall :=
  let lr_scheduler := Callback.reduceLROnPlateau "val_loss" (1/2) 2 (1/1000000)
  let early_stopping := Callback.earlyStopping "val_loss" 5 true
  { epochs := epochs
    batch_size := batch_size
    hasValidationData := true
    callbacks := [early_stopping, lr_scheduler]
    verbose := 1 }

/-- `np.argmax` over one row: index of the first maximal element
(accumulator: current index, best index, best value). -/
def npArgmaxAux : List ℚ → Nat → Nat → ℚ → Nat
  | [], _, best, _ => best
  | x :: rest, i, best, bestVal =>
      if x > bestVal then npArgmaxAux rest (i + 1) i x
      else npArgmaxAux rest (i + 1) best bestVal

/-- `np.argmax` of a row of prediction scores. -/
def npArgmax : List ℚ → Nat
  | [] => 0
  | x :: rest => npArgmaxAux rest 1 0 x

/-- The call to `classification_report(y_test, y_pred_classes,
output_dict=True)` as issued by the evaluation code. -/
structure ReportCall where
  y_true : List Int
  y_pred : List Nat
  output_dict : Bool
deriving DecidableEq, Repr

/-- The call to `confusion_matrix(y_test, y_pred_classes)` as issued by the
evaluation code. -/
structure ConfusionCall where
  y_true : List Int
  y_pred : List Nat
deriving DecidableEq, Repr

/-- The dictionary returned by evaluation: the two sklearn calls whose
results it packages under `'classification_report'` and
`'confusion_matrix'`. -/
structure EvalResult where
  classification_report : ReportCall
  confusion_matrix : ConfusionCall
deriving DecidableEq, Repr

/-- `SentimentModel.evaluate`: `y_pred = self.model.predict(X_test)` (the
prediction matrix is the first argument, standing for the framework's
output), `y_pred_classes = np.argmax(y_pred, axis=1)`, then the
classification report with `output_dict=True` and the confusion matrix. -/
def SentimentModel.evaluate (y_pred : List (List ℚ)) (y_test : List Int) :
    EvalResult :=
  let y_pred_classes := y_pred.map npArgmax
  { classification_report :=
      { y_true := y_test, y_pred := y_pred_classes, output_dict := true }
    confusion_matrix := { y_true := y_test, y_pred := y_pred_classes } }

/-- The module-level `evaluate_model` (functional compatibility API). -/
def evaluate_model (y_pred : List (List ℚ)) (y_test : List Int) :
    EvalResult :=
  let y_pred_classes := y_pred.map npArgmax
  { classification_report :=
      { y_true := y_test, y_pred := y_pred_classes, output_dict := true }
    confusion_matrix := { y_true := y_test, y_pred := y_pred_classes } }

end ModelPy

open CompareModels ModelPy

/-- An outcome assignment under which every subprocess completes with
return code 0. -/
def allSucceed : ScriptInfo → SubprocessOutcome :=
  fun _ => SubprocessOutcome.completed 0 "" ""

/-- An outcome assignment under which every subprocess hits the timeout. -/
def allTimeout : ScriptInfo → SubprocessOutcome :=
  fun _ => SubprocessOutcome.timedOut

theorem invokedNames_append (l1 l2 : List Event) :
    invokedNames (l1 ++ l2) = invokedNames l1 ++ invokedNames l2 := by
  induction l1 with
  | nil => rfl
  | cons e rest ih => cases e <;> simp [invokedNames, ih]

theorem invokedTimeouts_append (l1 l2 : List Event) :
    invokedTimeouts (l1 ++ l2) = invokedTimeouts l1 ++ invokedTimeouts l2 := by
  induction l1 with
  | nil => rfl
  | cons e rest ih => cases e <;> simp [invokedTimeouts, ih]

theorem invokedNames_runOne (a : Args) (f : ScriptInfo → SubprocessOutcome)
    (s : ScriptInfo) : invokedNames (runOne a f s) = [s.name] := by
  cases hb : (run_script s.name s.args (scriptTimeout a s.name) (f s)).1 <;>
    simp [runOne, invokedNames, hb]

theorem invokedTimeouts_runOne (a : Args) (f : ScriptInfo → SubprocessOutcome)
    (s : ScriptInfo) :
    invokedTimeouts (runOne a f s) = [scriptTimeout a s.name] := by
  cases hb : (run_script s.name s.args (scriptTimeout a s.name) (f s)).1 <;>
    simp [runOne, invokedTimeouts, hb]

theorem invokedNames_flatMap (a : Args) (f : ScriptInfo → SubprocessOutcome)
    (l : List ScriptInfo) :
    invokedNames (l.flatMap (runOne a f)) = l.map (fun s => s.name) := by
  induction l with
  | nil => rfl
  | cons s rest ih =>
      simp [List.flatMap_cons, invokedNames_append, invokedNames_runOne, ih]

theorem invokedTimeouts_flatMap (a : Args) (f : ScriptInfo → SubprocessOutcome)
    (l : List ScriptInfo) :
    invokedTimeouts (l.flatMap (runOne a f)) =
      l.map (fun s => scriptTimeout a s.name) := by
  induction l with
  | nil => rfl
  | cons s rest ih =>
      simp [List.flatMap_cons, invokedTimeouts_append, invokedTimeouts_runOne, ih]

theorem invokedNames_main (a : Args) (f : ScriptInfo → SubprocessOutcome)
    (h : a.skip_training = false) :
    invokedNames (main a f) = (buildScripts a).map (fun s => s.name) := by
  unfold main
  rw [h]
  simp [invokedNames_append, invokedNames_flatMap, invokedNames]

/-- The names of `buildScripts a`, per flag setting. -/
theorem buildScripts_names (a : Args) :
    (buildScripts a).map (fun s => s.name) =
      ["mlp_basic_main.py", "mlp_enhanced_main.py",
       "kernel_approximation_main.py", "randomized_pca_main.py"]
      ++ (if a.include_roberta || a.include_all then ["roberta_main.py"] else [])
      ++ (if a.include_all then ["lstm_main.py", "lstm_roberta_main.py"] else []) := by
  obtain ⟨ir, ia, ss, tmo, st, v⟩ := a
  cases ir <;> cases ia <;> simp [buildScripts, script_mapping]

/-- `transformer_sample_size` is `min(sample_size, 20000)` in all cases. -/
theorem transformerSampleSize_eq_min (s : Int) :
    transformerSampleSize s = min s 20000 := by
  unfold transformerSampleSize
  split <;> omega

theorem invokedTimeouts_main (a : Args) (f : ScriptInfo → SubprocessOutcome)
    (h : a.skip_training = false) :
    invokedTimeouts (main a f) =
      (buildScripts a).map (fun s => scriptTimeout a s.name) := by
  unfold main
  rw [h]
  simp [invokedTimeouts_append, invokedTimeouts_flatMap, invokedTimeouts]

theorem logWarn_mem_flatMap (a : Args) (f : ScriptInfo → SubprocessOutcome)
    (l : List ScriptInfo) (s : ScriptInfo) (hs : s ∈ l)
    (hfail : (run_script s.name s.args (scriptTimeout a s.name) (f s)).1 = false) :
    Event.logWarn ("Skipping " ++ s.name ++ " due to errors") ∈
      l.flatMap (runOne a f) := by
  refine List.mem_flatMap.2 ⟨s, hs, ?_⟩
  simp [runOne, hfail]

/-- The command-line arguments with `--include_all` set. -/
def argsAll : Args := { defaultArgs with include_all := true }

/-- The command-line arguments with `--include_roberta` set. -/
def argsRoberta : Args := { defaultArgs with include_roberta := true }

/-- C1: a per-script failure never aborts the comparison run: every selected
script is still invoked, each failure is logged with a "Skipping ... due to
errors" warning, and report generation (`save_report_to_file`) followed by
result display (`load_and_display_results`) is still triggered after the
loop, for every assignment of subprocess outcomes. -/
theorem claim_C1_failures_do_not_abort (a : Args)
    (f : ScriptInfo → SubprocessOutcome) (h : a.skip_training = false) :
    invokedNames (main a f) = (buildScripts a).map (fun s => s.name) ∧
    (∀ s ∈ buildScripts a,
       (run_script s.name s.args (scriptTimeout a s.name) (f s)).1 = false →
         Event.logWarn ("Skipping " ++ s.name ++ " due to errors") ∈ main a f) ∧
    (∃ pre, main a f = pre ++ [Event.saveReport, Event.displayResults,
                               Event.logInfo "Model comparison complete!"]) := by
  refine ⟨invokedNames_main a f h, ?_, ⟨_, rfl⟩⟩
  intro s hs hfail
  unfold main
  rw [h]
  simp only [Bool.false_eq_true, if_false, List.mem_append]
  exact Or.inl (logWarn_mem_flatMap a f (buildScripts a) s hs hfail)

/-- C1 witness: with the default arguments and every subprocess timing out,
the conclusion of C1 holds. -/
theorem claim_C1_failures_do_not_abort_witness :
    defaultArgs.skip_training = false ∧
    (invokedNames (main defaultArgs allTimeout) =
       (buildScripts defaultArgs).map (fun s => s.name) ∧
     (∀ s ∈ buildScripts defaultArgs,
        (run_script s.name s.args (scriptTimeout defaultArgs s.name)
            (allTimeout s)).1 = false →
          Event.logWarn ("Skipping " ++ s.name ++ " due to errors") ∈
            main defaultArgs allTimeout) ∧
     (∃ pre, main defaultArgs allTimeout =
        pre ++ [Event.saveReport, Event.displayResults,
                Event.logInfo "Model comparison complete!"])) :=
  ⟨rfl, claim_C1_failures_do_not_abort defaultArgs allTimeout rfl⟩

/-- C2: the driver invokes the per-model scripts sequentially in the fixed
relative order mlp_basic, mlp_enhanced, kernel_approximation,
randomized_pca, then (when included) roberta, lstm, lstm_roberta: the
ordered list of invocation events of the trace is exactly this list. -/
theorem claim_C2_sequential_fixed_order (a : Args)
    (f : ScriptInfo → SubprocessOutcome) (h : a.skip_training = false) :
    invokedNames (main a f) =
      ["mlp_basic_main.py", "mlp_enhanced_main.py",
       "kernel_approximation_main.py", "randomized_pca_main.py"]
      ++ (if a.include_roberta || a.include_all then ["roberta_main.py"] else [])
      ++ (if a.include_all then ["lstm_main.py", "lstm_roberta_main.py"] else []) := by
  rw [invokedNames_main a f h, buildScripts_names]

/-- C2 witness: with `--include_all`, all seven scripts are invoked in the
fixed order. -/
theorem claim_C2_sequential_fixed_order_witness :
    argsAll.skip_training = false ∧
    invokedNames (main argsAll allSucceed) =
      ["mlp_basic_main.py", "mlp_enhanced_main.py",
       "kernel_approximation_main.py", "randomized_pca_main.py"]
      ++ (if argsAll.include_roberta || argsAll.include_all then ["roberta_main.py"] else [])
      ++ (if argsAll.include_all then ["lstm_main.py", "lstm_roberta_main.py"] else []) :=
  ⟨rfl, claim_C2_sequential_fixed_order argsAll allSucceed rfl⟩

/-- C4 counterexample: the list of scripts run is NOT the same constant
list on every invocation of the driver: the default invocation and the
`--include_all` invocation run different script lists. -/
theorem claim_C4_counterexample_flag_dependent :
    invokedNames (main defaultArgs allSucceed) ≠
      invokedNames (main argsAll allSucceed) := by
  rw [invokedNames_main defaultArgs allSucceed rfl, buildScripts_names,
      invokedNames_main argsAll allSucceed rfl, buildScripts_names]
  decide

/-- C4 (amended): on every training invocation, the scripts run are drawn
from one fixed constant order: the first four invocations are always
mlp_basic, mlp_enhanced, kernel_approximation, randomized_pca, and the full
invocation list is a sublist of the fixed seven-element list; the selection
depends only on the include flags. -/
theorem claim_C4_amended_fixed_order (a : Args)
    (f : ScriptInfo → SubprocessOutcome) (h : a.skip_training = false) :
    List.take 4 (invokedNames (main a f)) =
      ["mlp_basic_main.py", "mlp_enhanced_main.py",
       "kernel_approximation_main.py", "randomized_pca_main.py"] ∧
    List.Sublist (invokedNames (main a f))
      ["mlp_basic_main.py", "mlp_enhanced_main.py",
       "kernel_approximation_main.py", "randomized_pca_main.py",
       "roberta_main.py", "lstm_main.py", "lstm_roberta_main.py"] := by
  rw [invokedNames_main a f h, buildScripts_names]
  cases h1 : a.include_roberta <;> cases h2 : a.include_all <;>
    exact ⟨by decide, by decide⟩

/-- C4 (amended) witness: instantiated at the default arguments. -/
theorem claim_C4_amended_fixed_order_witness :
    defaultArgs.skip_training = false ∧
    (List.take 4 (invokedNames (main defaultArgs allSucceed)) =
       ["mlp_basic_main.py", "mlp_enhanced_main.py",
        "kernel_approximation_main.py", "randomized_pca_main.py"] ∧
     List.Sublist (invokedNames (main defaultArgs allSucceed))
       ["mlp_basic_main.py", "mlp_enhanced_main.py",
        "kernel_approximation_main.py", "randomized_pca_main.py",
        "roberta_main.py", "lstm_main.py", "lstm_roberta_main.py"]) :=
  ⟨rfl, claim_C4_amended_fixed_order defaultArgs allSucceed rfl⟩

/-- C5 counterexample: not every script invocation in a single driver run
uses one and the same timeout: with `--include_roberta` and the default
`--timeout 1800`, the trace contains invocations with timeout 1800 and an
invocation with timeout 3600. -/
theorem claim_C5_counterexample_unequal_timeouts :
    ¬ ∀ t1 ∈ invokedTimeouts (main argsRoberta allSucceed),
        ∀ t2 ∈ invokedTimeouts (main argsRoberta allSucceed), t1 = t2 := by
  intro hAll
  have h1 : (1800 : Int) ∈ invokedTimeouts (main argsRoberta allSucceed) := by
    rw [invokedTimeouts_main argsRoberta allSucceed rfl]
    decide
  have h2 : (3600 : Int) ∈ invokedTimeouts (main argsRoberta allSucceed) := by
    rw [invokedTimeouts_main argsRoberta allSucceed rfl]
    decide
  exact absurd (hAll 1800 h1 3600 h2) (by decide)

/-- C5 (amended): every invocation's timeout is determined by the script
name alone: `args.timeout` for every script except `roberta_main.py` and
`lstm_roberta_main.py`, which get `max(args.timeout, 3600)`; consequently,
whenever `args.timeout ≥ 3600`, every invocation uses the same timeout. -/
theorem claim_C5_amended_per_script_timeouts (a : Args)
    (f : ScriptInfo → SubprocessOutcome) :
    invokedTimeouts (main a f) = (invokedNames (main a f)).map (scriptTimeout a) ∧
    (3600 ≤ a.timeout → ∀ t ∈ invokedTimeouts (main a f), t = a.timeout) := by
  by_cases hst : a.skip_training
  · have hmain : main a f =
        [Event.logInfo "Skipping model training as requested", Event.saveReport,
         Event.displayResults, Event.logInfo "Model comparison complete!"] := by
      simp [main, hst]
    rw [hmain]
    exact ⟨rfl, fun _ t htm => by simp [invokedTimeouts] at htm⟩
  · have hst' : a.skip_training = false := by simpa using hst
    refine ⟨?_, ?_⟩
    · rw [invokedTimeouts_main a f hst', invokedNames_main a f hst', List.map_map]
      rfl
    · intro hle t htm
      rw [invokedTimeouts_main a f hst'] at htm
      obtain ⟨s, _, rfl⟩ := List.mem_map.1 htm
      unfold scriptTimeout
      split
      · omega
      · rfl

/-- C5 (amended) witness: with `--timeout 4000` (≥ 3600) and
`--include_roberta`, every invocation uses timeout 4000. -/
theorem claim_C5_amended_per_script_timeouts_witness :
    (3600 : Int) ≤ 4000 ∧
    ∀ t ∈ invokedTimeouts
        (main { argsRoberta with timeout := 4000 } allSucceed), t = 4000 :=
  ⟨by decide,
   (claim_C5_amended_per_script_timeouts
      { argsRoberta with timeout := 4000 } allSucceed).2 (by decide)⟩

/-- C6: no retry logic: each selected script is invoked exactly once per
driver run, regardless of which invocations succeed or fail. -/
theorem claim_C6_no_retry (a : Args) (f : ScriptInfo → SubprocessOutcome)
    (h : a.skip_training = false) :
    ∀ s ∈ buildScripts a, (invokedNames (main a f)).count s.name = 1 := by
  intro s hs
  rw [invokedNames_main a f h]
  have hnd : ((buildScripts a).map (fun s => s.name)).Nodup := by
    rw [buildScripts_names]
    cases h1 : a.include_roberta <;> cases h2 : a.include_all <;> decide
  exact List.count_eq_one_of_mem hnd (List.mem_map_of_mem _ hs)

/-- C6 witness: with the default arguments and every subprocess timing out
(so every invocation fails), `mlp_basic_main.py` is still invoked exactly
once. -/
theorem claim_C6_no_retry_witness :
    defaultArgs.skip_training = false ∧
    (⟨"mlp_basic_main.py", ["--sample_size=20000"]⟩ : ScriptInfo) ∈
      buildScripts defaultArgs ∧
    (invokedNames (main defaultArgs allTimeout)).count "mlp_basic_main.py" = 1 :=
  ⟨rfl, by decide,
   claim_C6_no_retry defaultArgs allTimeout rfl
     ⟨"mlp_basic_main.py", ["--sample_size=20000"]⟩ (by decide)⟩

/-- C3: `run_script` catches a subprocess timeout: when the subprocess
raises `TimeoutExpired`, `run_script` returns `False` and logs a
"Timeout after ... seconds" error, instead of propagating the exception
(in the embedding, `run_script` is a total function on outcomes). -/
theorem claim_C3_timeout_caught (script_name : String) (args : List String)
    (timeout : Int) :
    (run_script script_name args timeout SubprocessOutcome.timedOut).1 = false ∧
    (⟨LogLevel.error, "Timeout after " ++ toString timeout ++
        " seconds while running " ++ script_name⟩ : LogEntry) ∈
      (run_script script_name args timeout SubprocessOutcome.timedOut).2 := by
  constructor
  · rfl
  · simp [run_script]

/-- C9: `run_script` is total over failures at its interface: for every
script name, argument list, timeout, and subprocess outcome it returns a
boolean (it is a total function in the embedding), and it returns `True`
if and only if the subprocess completed within the timeout with return
code 0. -/
theorem claim_C9_run_script_total (script_name : String) (args : List String)
    (timeout : Int) (outcome : SubprocessOutcome) :
    (run_script script_name args timeout outcome).1 = true ↔
      ∃ out err, outcome = SubprocessOutcome.completed 0 out err := by
  cases outcome with
  | completed rc out err =>
      by_cases h : rc = 0
      · subst h
        simp [run_script]
      · simp [run_script, h]
  | timedOut => simp [run_script]
  | raised e => simp [run_script]

/-- C7: the model wrapper configures a fixed-topology feed-forward network:
`SentimentModel._create_model` builds Dense(512, relu) / Dropout(0.3) /
Dense(256, relu) / Dropout(0.3) / Dense(128, relu) / Dropout(0.3) /
Dense(num_classes, softmax) compiled with `adam` and
`sparse_categorical_crossentropy`, and `EnhancedSentimentModel` builds the
same 512/256/128/num_classes topology with an L2(0.001) kernel regularizer
and a BatchNormalization layer after each hidden Dense layer. -/
theorem claim_C7_fixed_topology (input_dim num_classes : Nat) :
    SentimentModel.createModel input_dim num_classes =
      { layers :=
          [Layer.dense 512 Activation.relu (some input_dim) none,
           Layer.dropout (3/10),
           Layer.dense 256 Activation.relu none none,
           Layer.dropout (3/10),
           Layer.dense 128 Activation.relu none none,
           Layer.dropout (3/10),
           Layer.dense num_classes Activation.softmax none none]
        compileCfg :=
          { optimizer := OptimizerSpec.named "adam"
            loss := "sparse_categorical_crossentropy"
            metrics := ["accuracy"] } } ∧
    (EnhancedSentimentModel.createModel input_dim num_classes).layers =
      [Layer.dense 512 Activation.relu (some input_dim) (some (1/1000)),
       Layer.batchNorm,
       Layer.dropout (4/10),
       Layer.dense 256 Activation.relu none (some (1/1000)),
       Layer.batchNorm,
       Layer.dropout (3/10),
       Layer.dense 128 Activation.relu none (some (1/1000)),
       Layer.batchNorm,
       Layer.dropout (2/10),
       Layer.dense num_classes Activation.softmax none none] := by
  exact ⟨rfl, rfl⟩

/-- C10: whenever transformer models are included, the `--sample_size`
argument passed to the roberta, lstm, and lstm_roberta scripts is
`min(args.sample_size, 20000)`: it never exceeds 20000 and equals the
requested size whenever that size is at most 20000, while every
non-transformer script receives the requested sample size unchanged. -/
theorem claim_C10_transformer_sample_size (a : Args)
    (h : a.include_roberta = true ∨ a.include_all = true) :
    ∀ s ∈ buildScripts a,
      (s.name ∈ (["roberta_main.py", "lstm_main.py",
                  "lstm_roberta_main.py"] : List String) →
         ("--sample_size=" ++ toString (min a.sample_size 20000)) ∈ s.args ∧
         min a.sample_size 20000 ≤ 20000 ∧
         (a.sample_size ≤ 20000 →
            min a.sample_size 20000 = a.sample_size)) ∧
      (s.name ∉ (["roberta_main.py", "lstm_main.py",
                  "lstm_roberta_main.py"] : List String) →
         ("--sample_size=" ++ toString a.sample_size) ∈ s.args) := by
  intro s hs
  have hmin1 : min a.sample_size 20000 ≤ (20000 : Int) := min_le_right _ _
  have hmin2 : a.sample_size ≤ 20000 → min a.sample_size 20000 = a.sample_size :=
    fun hle => min_eq_left hle
  cases h2 : a.include_all with
  | true =>
      simp [buildScripts, script_mapping, h2, transformerSampleSize_eq_min] at hs
      rcases hs with rfl | rfl | rfl | rfl | rfl | rfl | rfl <;>
        refine ⟨fun hmem => ?_, fun hnmem => ?_⟩ <;>
          simp_all
  | false =>
      have h1 : a.include_roberta = true := by
        rcases h with h | h
        · exact h
        · rw [h2] at h
          exact absurd h (by decide)
      simp [buildScripts, script_mapping, h1, h2, transformerSampleSize_eq_min] at hs
      rcases hs with rfl | rfl | rfl | rfl | rfl <;>
        refine ⟨fun hmem => ?_, fun hnmem => ?_⟩ <;>
          simp_all

/-- The roberta script entry with the default 20000 sample size, used to
instantiate C10. -/
def robertaScript : ScriptInfo := ⟨"roberta_main.py", ["--sample_size=20000"]⟩

/-- C10 witness: with `--include_roberta` and the default sample size, the
roberta entry of the script list receives `--sample_size=20000`. -/
theorem claim_C10_transformer_sample_size_witness :
    (argsRoberta.include_roberta = true ∨ argsRoberta.include_all = true) ∧
    robertaScript ∈ buildScripts argsRoberta ∧
    ((robertaScript.name ∈ (["roberta_main.py", "lstm_main.py",
                             "lstm_roberta_main.py"] : List String) →
        ("--sample_size=" ++ toString (min argsRoberta.sample_size 20000)) ∈
          robertaScript.args ∧
        min argsRoberta.sample_size 20000 ≤ 20000 ∧
        (argsRoberta.sample_size ≤ 20000 →
           min argsRoberta.sample_size 20000 = argsRoberta.sample_size)) ∧
     (robertaScript.name ∉ (["roberta_main.py", "lstm_main.py",
                             "lstm_roberta_main.py"] : List String) →
        ("--sample_size=" ++ toString argsRoberta.sample_size) ∈
          robertaScript.args)) :=
  ⟨Or.inl rfl, by decide,
   claim_C10_transformer_sample_size argsRoberta (Or.inl rfl)
     robertaScript (by decide)⟩

/-- C8: the class-based API and the functional compatibility API are
equivalent: `SentimentModel._create_model` and the module-level
`create_model` produce identically configured models, and
`SentimentModel.train` / `SentimentModel.evaluate` perform the same
delegating steps as `train_model` / `evaluate_model`. -/
theorem claim_C8_apis_equivalent :
    (∀ input_dim num_classes : Nat,
       SentimentModel.createModel input_dim num_classes =
         create_model input_dim num_classes) ∧
    (∀ epochs batch_size : Nat,
       SentimentModel.trainCall epochs batch_size =
         train_model_call epochs batch_size) ∧
    (∀ (y_pred : List (List ℚ)) (y_test : List Int),
       SentimentModel.evaluate y_pred y_test = evaluate_model y_pred y_test) := by
  exact ⟨fun _ _ => rfl, fun _ _ => rfl, fun _ _ => rfl⟩
